import Mathlib

/-!
Verification of the scenery-phet `UtteranceQueue` accessibility announcement
queue (source: the module registered as `SCENERY_PHET/accessibility/UtteranceQueue`)
together with the `Utterance` value objects it queues.

The queue module keeps four module-level variables — `queue` (array of
Utterance, first-to-last announcement order), `interval` (milliseconds, 500),
`muted` (false) and `enabled` (true) — and exposes `addToBack`, `addToFront`,
`next`, `clear`, the flag setters/getters, and `setInterval`/`getInterval`.
At module load it registers a single repeating timer:
`Timer.setInterval( function() { if (!enabled) return; UtteranceQueue.next(); },
UtteranceQueue.interval )`, whose delay argument is evaluated once at
registration time.

JavaScript features are embedded explicitly:
* an optional string field (`typeId`, which may be `undefined` or a string)
  becomes `Option String`; JavaScript truthiness of such a field
  (`if ( utterance.typeId )`) is false for `undefined` and for the empty
  string, captured by `truthy`;
* `queue.splice` performed back-to-front over all strict-equality matches
  removes exactly the matching entries while keeping the rest in order,
  captured by `List.filter`;
* `queue.shift()` on an empty array yields `undefined`, so `next` announces
  nothing in that case;
* announcing to `AriaHerald.announcePolite` is modelled as the optional
  `String` output of `next`.
-/

/-- Modelled from the spec: the `Utterance` class
(`SCENERY_PHET/accessibility/Utterance`) is not among the available source
files — only its callers, the queue module and the QUnit tests are.  Per the
spec's data model, an Utterance wraps an ordered sequence of alert strings
(a single string is the singleton sequence), an optional grouping key
`typeId`, a zero-argument boolean `predicate` (default always-true, consulted
once at drain time — embedded as the boolean value that call returns at that
moment), a `loopAlerts` flag, and an internal cursor that advances on each
announcement, wrapping when `loopAlerts` is set and saturating at the last
string otherwise. -/
structure Utterance where
  alert : List String
  loopAlerts : Bool
  typeId : Option String
  predicate : Bool
  cursor : Nat
  deriving Repr, DecidableEq

/-- Modelled from the spec: the string an announcement of `u` emits at its
current cursor position — the cursor wraps modulo the sequence length in loop
mode and saturates at the last index otherwise. -/
def Utterance.currentText (u : Utterance) : String :=
  if u.loopAlerts then u.alert.getD (u.cursor % u.alert.length) ""
  else u.alert.getD (min u.cursor (u.alert.length - 1)) ""

/-- Modelled from the spec: announcing monotonically advances the cursor. -/
def Utterance.advance (u : Utterance) : Utterance :=
  { u with cursor := u.cursor + 1 }

/-- Modelled from the spec: `reset()` returns the cursor to the first
string. -/
def Utterance.reset (u : Utterance) : Utterance :=
  { u with cursor := 0 }

/-- The sequence of strings emitted by `n` successive announcements of `u`
(each announcement emits the current string, then advances the cursor). -/
def Utterance.announceN : Utterance → Nat → List String
  | _, 0 => []
  | u, n + 1 => u.currentText :: u.advance.announceN n

/-- The argument type of `addToBack`/`addToFront`: the source accepts either
a bare string or an `Utterance` instance. -/
inductive Alertable where
  | str (s : String)
  | utt (u : Utterance)
  deriving Repr, DecidableEq

/-- `addToBack`/`addToFront` wrap a bare string via `new Utterance( utterance )`:
a single-string, non-looping utterance with no `typeId` and the default
always-true predicate (the constructor defaults are modelled from the spec). -/
def Alertable.wrap : Alertable → Utterance
  | .utt u => u
  | .str s =>
      { alert := [s], loopAlerts := false, typeId := none, predicate := true, cursor := 0 }

/-- JavaScript truthiness of the optional string field `typeId`:
`undefined` and the empty string are falsy, every other string is truthy. -/
def truthy : Option String → Bool
  | none => false
  | some s => !(s == "")

/-- The module-level state of the `UtteranceQueue` singleton: the pending
`queue` (index 0 is announced first), the `muted` and `enabled` flags, and
the `interval` variable read by `getInterval`. -/
structure QueueState where
  queue : List Utterance
  muted : Bool
  enabled : Bool
  interval : Nat
  deriving Repr, DecidableEq

namespace UtteranceQueue

/-- `addToBack( utterance )`: returns immediately when the queue is disabled
(before any string wrapping or eviction); otherwise wraps a bare string, and
when the wrapped utterance's `typeId` is truthy removes every queued entry
whose `typeId` strictly equals it (the source's back-to-front splice loop,
whose net effect is `List.filter`), then pushes the utterance at the tail. -/
def addToBack (st : QueueState) (a : Alertable) : QueueState :=
  if st.enabled then
    let u := a.wrap
    let q :=
      if truthy u.typeId then st.queue.filter (fun v => !(v.typeId == u.typeId))
      else st.queue
    { st with queue := q ++ [u] }
  else st

/-- `addToFront( utterance )`: returns immediately when disabled; otherwise
wraps a bare string and unshifts the utterance at the head — no `typeId`
eviction is performed. -/
def addToFront (st : QueueState) (a : Alertable) : QueueState :=
  if st.enabled then { st with queue := a.wrap :: st.queue }
  else st

/-- `next()`: shifts the head off the queue (a shift on an empty queue yields
`undefined` and nothing happens); the removed utterance's current text is
handed to `AriaHerald.announcePolite` exactly when the queue was non-empty,
the queue is not muted, and the utterance's predicate returns true — a
removed-but-unannounced utterance is simply dropped. -/
def next (st : QueueState) : QueueState × Option String :=
  match st.queue with
  | [] => (st, none)
  | u :: rest =>
      ({ st with queue := rest },
        if !st.muted && u.predicate then some u.currentText else none)

/-- `clear()`: replaces the queue array with a fresh empty array,
unconditionally. -/
def clear (st : QueueState) : QueueState :=
  { st with queue := [] }

/-- `setMuted( isMuted )`. -/
def setMuted (st : QueueState) (isMuted : Bool) : QueueState :=
  { st with muted := isMuted }

/-- `getMuted()`. -/
def getMuted (st : QueueState) : Bool :=
  st.muted

/-- `setEnabled( isEnabled )`. -/
def setEnabled (st : QueueState) (isEnabled : Bool) : QueueState :=
  { st with enabled := isEnabled }

/-- `getEnabled()`. -/
def getEnabled (st : QueueState) : Bool :=
  st.enabled

/-- `setInterval( alertInterval )`: assigns the module variable `interval`
and nothing else. -/
def setInterval (st : QueueState) (alertInterval : Nat) : QueueState :=
  { st with interval := alertInterval }

/-- `getInterval()`. -/
def getInterval (st : QueueState) : Nat :=
  st.interval

/-- The repeating timer callback registered at module load: a no-op when the
queue is disabled (in particular the head is not removed), otherwise one
`next()` drain step. -/
def timerStep (st : QueueState) : QueueState × Option String :=
  if st.enabled then next st else (st, none)

/-- Fold a sequence of `addToBack` calls over a queue state. -/
def enqueueAll (st : QueueState) (us : List Utterance) : QueueState :=
  us.foldl (fun s u => addToBack s (Alertable.utt u)) st

/-- `n` successive drain steps via `next`, collecting every announced
string in order. -/
def drainN (st : QueueState) : Nat → QueueState × List String
  | 0 => (st, [])
  | n + 1 =>
      let p := next st
      let r := drainN p.1 n
      (r.1, p.2.toList ++ r.2)

end UtteranceQueue

/-- The whole running system: the queue singleton's state plus the delay of
the repeating drain timer.  The source registers the timer once at module
load (`Timer.setInterval( callback, UtteranceQueue.interval )`): the delay
argument is evaluated at that moment, and no later code re-registers the
timer or updates its delay, so the registered delay is a separate piece of
state that only module load writes. -/
structure SystemState where
  qs : QueueState
  timerDelay : Nat
  deriving Repr, DecidableEq

/-- The state right after module load: empty queue, `interval = 500`,
unmuted, enabled, and the drain timer registered with the then-current
interval value of 500 milliseconds. -/
def initialSystem : SystemState :=
  { qs := { queue := [], muted := false, enabled := true, interval := 500 }
    timerDelay := 500 }

/-- `utteranceQueue.setInterval( ms )` at the system level: it assigns the
module variable `interval`; the already-registered repeating timer keeps the
delay it was registered with. -/
def systemSetInterval (st : SystemState) (ms : Nat) : SystemState :=
  { st with qs := UtteranceQueue.setInterval st.qs ms }

open UtteranceQueue

/-- Claim C5: when the `enabled` flag is false, `addToBack` and `addToFront`
return the state unchanged (the early return fires before any wrapping or
eviction), and the repeating drain timer callback does nothing — in
particular it does not remove the head of the queue and announces nothing. -/
theorem disabled_ops_are_noops (st : QueueState) (a b : Alertable)
    (h : st.enabled = false) :
    addToBack st a = st ∧ addToFront st b = st ∧ timerStep st = (st, none) := by
  refine ⟨?_, ?_, ?_⟩ <;> simp [addToBack, addToFront, timerStep, h]

/-- Witness for C5 at a concrete disabled state holding one pending
utterance. -/
theorem disabled_ops_are_noops_witness :
    addToBack
        { queue := [{ alert := ["pending"], loopAlerts := false, typeId := none,
                      predicate := true, cursor := 0 }],
          muted := false, enabled := false, interval := 500 }
        (Alertable.str "hi") =
      { queue := [{ alert := ["pending"], loopAlerts := false, typeId := none,
                    predicate := true, cursor := 0 }],
        muted := false, enabled := false, interval := 500 } ∧
    addToFront
        { queue := [{ alert := ["pending"], loopAlerts := false, typeId := none,
                      predicate := true, cursor := 0 }],
          muted := false, enabled := false, interval := 500 }
        (Alertable.str "ho") =
      { queue := [{ alert := ["pending"], loopAlerts := false, typeId := none,
                    predicate := true, cursor := 0 }],
        muted := false, enabled := false, interval := 500 } ∧
    timerStep
        { queue := [{ alert := ["pending"], loopAlerts := false, typeId := none,
                      predicate := true, cursor := 0 }],
          muted := false, enabled := false, interval := 500 } =
      ({ queue := [{ alert := ["pending"], loopAlerts := false, typeId := none,
                     predicate := true, cursor := 0 }],
         muted := false, enabled := false, interval := 500 }, none) :=
  disabled_ops_are_noops _ (Alertable.str "hi") (Alertable.str "ho") rfl

/-- Claim C8: after `clear()` the queue is empty, so a drain cycle arriving
after the `clear()` and before any new `addToBack` removes nothing and
announces nothing — both through the raw `next()` step and through the
enabled-gated timer callback. -/
theorem clear_then_drain_is_silent (st : QueueState) :
    (clear st).queue = [] ∧
    next (clear st) = (clear st, none) ∧
    timerStep (clear st) = (clear st, none) := by
  refine ⟨rfl, rfl, ?_⟩
  by_cases h : st.enabled <;> simp [timerStep, clear, next, h]

/-- Claim C10: `clear()` is not gated on `enabled` — for every queue state
(whatever the flags) `clear` empties the queue, touching nothing but the
queue array, so clearing while disabled still leaves the queue empty. -/
theorem clear_ignores_enabled (st : QueueState) :
    (clear st).queue = [] ∧ (clear st).enabled = st.enabled ∧
    (clear st).muted = st.muted ∧ (clear st).interval = st.interval :=
  ⟨rfl, rfl, rfl, rfl⟩

/-- Claim C2: on an enabled queue, `addToFront` inserts the (wrapped)
utterance at the head and removes nothing — the queue below it is exactly
the old queue even when entries share the new utterance's `typeId`; hence
the next drain step hands back exactly the old queue (the new head is the
one drained first, ahead of every earlier `addToBack` entry), and of two
successive `addToFront` calls the later one ends up frontmost. -/
theorem addToFront_unshifts (st : QueueState) (a b : Alertable)
    (h : st.enabled = true) :
    (addToFront st a).queue = a.wrap :: st.queue ∧
    (next (addToFront st a)).1.queue = st.queue ∧
    (addToFront (addToFront st a) b).queue = b.wrap :: a.wrap :: st.queue := by
  refine ⟨?_, ?_, ?_⟩ <;> simp [addToFront, next, h]

/-- Witness for C2: two `addToFront` calls whose utterances share the
`typeId` of an entry already queued; nothing is evicted and the later call
is frontmost. -/
theorem addToFront_unshifts_witness :
    (addToFront
        { queue := [{ alert := ["old"], loopAlerts := false, typeId := some "t",
                      predicate := true, cursor := 0 }],
          muted := false, enabled := true, interval := 500 }
        (Alertable.utt { alert := ["a"], loopAlerts := false, typeId := some "t",
                         predicate := true, cursor := 0 })).queue =
      [{ alert := ["a"], loopAlerts := false, typeId := some "t",
         predicate := true, cursor := 0 },
       { alert := ["old"], loopAlerts := false, typeId := some "t",
         predicate := true, cursor := 0 }] ∧
    (next (addToFront
        { queue := [{ alert := ["old"], loopAlerts := false, typeId := some "t",
                      predicate := true, cursor := 0 }],
          muted := false, enabled := true, interval := 500 }
        (Alertable.utt { alert := ["a"], loopAlerts := false, typeId := some "t",
                         predicate := true, cursor := 0 }))).1.queue =
      [{ alert := ["old"], loopAlerts := false, typeId := some "t",
         predicate := true, cursor := 0 }] ∧
    (addToFront (addToFront
        { queue := [{ alert := ["old"], loopAlerts := false, typeId := some "t",
                      predicate := true, cursor := 0 }],
          muted := false, enabled := true, interval := 500 }
        (Alertable.utt { alert := ["a"], loopAlerts := false, typeId := some "t",
                         predicate := true, cursor := 0 }))
        (Alertable.utt { alert := ["b"], loopAlerts := false, typeId := some "t",
                         predicate := true, cursor := 0 })).queue =
      [{ alert := ["b"], loopAlerts := false, typeId := some "t",
         predicate := true, cursor := 0 },
       { alert := ["a"], loopAlerts := false, typeId := some "t",
         predicate := true, cursor := 0 },
       { alert := ["old"], loopAlerts := false, typeId := some "t",
         predicate := true, cursor := 0 }] :=
  addToFront_unshifts _
    (Alertable.utt { alert := ["a"], loopAlerts := false, typeId := some "t",
                     predicate := true, cursor := 0 })
    (Alertable.utt { alert := ["b"], loopAlerts := false, typeId := some "t",
                     predicate := true, cursor := 0 }) rfl

/-- Claim C3: a `next()` call on an empty queue changes nothing and announces
nothing; on a non-empty queue it removes exactly the head (never re-queuing
it), and the head's current text is announced precisely when the queue is
not muted and the head's predicate returns true at that moment — otherwise
the head is dropped silently. -/
theorem next_drain_behaviour (st : QueueState) :
    (st.queue = [] → next st = (st, none)) ∧
    (∀ u rest, st.queue = u :: rest →
      (next st).1 = { st with queue := rest } ∧
      (next st).2 = (if !st.muted && u.predicate then some u.currentText else none) ∧
      ((next st).2 = some u.currentText ↔ (st.muted = false ∧ u.predicate = true))) := by
  obtain ⟨q, m, e, i⟩ := st
  constructor
  · intro h
    simp only at h
    subst h
    rfl
  · intro u rest h
    simp only at h
    subst h
    refine ⟨rfl, rfl, ?_⟩
    cases m <;> cases hp : u.predicate <;>
      simp [next, hp]

/-- Witness for C3: a drain on an empty queue, and a drain on a queue whose
head has a true predicate on an unmuted queue, announcing the head's text. -/
theorem next_drain_behaviour_witness :
    next { queue := [], muted := false, enabled := true, interval := 500 } =
      ({ queue := [], muted := false, enabled := true, interval := 500 }, none) ∧
    (next { queue := [{ alert := ["hello"], loopAlerts := false, typeId := none,
                        predicate := true, cursor := 0 }],
            muted := false, enabled := true, interval := 500 }).1 =
      { queue := [], muted := false, enabled := true, interval := 500 } ∧
    (next { queue := [{ alert := ["hello"], loopAlerts := false, typeId := none,
                        predicate := true, cursor := 0 }],
            muted := false, enabled := true, interval := 500 }).2 = some "hello" := by
  refine ⟨(next_drain_behaviour _).1 rfl, ?_⟩
  have h := (next_drain_behaviour
      { queue := [{ alert := ["hello"], loopAlerts := false, typeId := none,
                    predicate := true, cursor := 0 }],
        muted := false, enabled := true, interval := 500 }).2
      { alert := ["hello"], loopAlerts := false, typeId := none,
        predicate := true, cursor := 0 } [] rfl
  exact ⟨h.1, h.2.2.mpr ⟨rfl, rfl⟩⟩

/-- Claim C6: the non-looping utterance built over the alert sequence
`["1","2","3"]` announces `"1","2","3","3"` over four successive
announcements; once the cursor has passed the last string every further
announcement re-emits that last string; and after `reset()` the next
announcement emits the first string `"1"` whatever the prior cursor
position was. -/
theorem utterance_saturates_and_resets :
    Utterance.announceN
        { alert := ["1", "2", "3"], loopAlerts := false, typeId := none,
          predicate := true, cursor := 0 } 4 = ["1", "2", "3", "3"] ∧
    (∀ c : Nat, Utterance.currentText
        { alert := ["1", "2", "3"], loopAlerts := false, typeId := none,
          predicate := true, cursor := c + 2 } = "3") ∧
    (∀ c : Nat, Utterance.announceN
        (Utterance.reset
          { alert := ["1", "2", "3"], loopAlerts := false, typeId := none,
            predicate := true, cursor := c }) 1 = ["1"]) := by
  refine ⟨by decide, ?_, fun c => rfl⟩
  intro c
  have hmin : min (c + 2) 2 = 2 := by omega
  simp [Utterance.currentText, hmin]

/-- Claim C7: the looping utterance over `["1","2","3"]` announces
`"1","2","3","1","2","3","1"` over seven successive announcements, and its
emitted string is periodic in the cursor with period 3, the length of the
alert sequence. -/
theorem utterance_loops_with_period :
    Utterance.announceN
        { alert := ["1", "2", "3"], loopAlerts := true, typeId := none,
          predicate := true, cursor := 0 } 7 =
      ["1", "2", "3", "1", "2", "3", "1"] ∧
    (∀ c : Nat, Utterance.currentText
        { alert := ["1", "2", "3"], loopAlerts := true, typeId := none,
          predicate := true, cursor := c + 3 } =
      Utterance.currentText
        { alert := ["1", "2", "3"], loopAlerts := true, typeId := none,
          predicate := true, cursor := c }) := by
  refine ⟨by decide, ?_⟩
  intro c
  simp [Utterance.currentText, Nat.add_mod_right]

/-- Counterexample to claim C9 as stated: after `setInterval( 100 )` on the
freshly loaded system, `getInterval()` does return 100, but the repeating
drain timer still uses the 500 ms delay captured when it was registered at
module load — the drain period actually used does not become 100 on any
later scheduling cycle, because nothing ever re-reads the `interval`
variable into the timer. -/
theorem setInterval_counterexample :
    getInterval (systemSetInterval initialSystem 100).qs = 100 ∧
    (systemSetInterval initialSystem 100).timerDelay = 500 ∧
    (systemSetInterval initialSystem 100).timerDelay ≠ 100 := by
  refine ⟨rfl, rfl, by decide⟩

/-- Claim C9 amended: `setInterval( ms )` updates only the module variable
`interval`, so `getInterval()` returns `ms`, while the repeating timer keeps
the delay it was registered with at module load (500 ms on the initial
system) — the actual drain period never changes. -/
theorem setInterval_updates_variable_only (st : SystemState) (ms : Nat) :
    getInterval (systemSetInterval st ms).qs = ms ∧
    (systemSetInterval st ms).timerDelay = st.timerDelay ∧
    (systemSetInterval st ms).qs.queue = st.qs.queue ∧
    (systemSetInterval st ms).qs.muted = st.qs.muted ∧
    (systemSetInterval st ms).qs.enabled = st.qs.enabled :=
  ⟨rfl, rfl, rfl, rfl, rfl⟩

/-- Filtering with `p` after filtering with its negation leaves nothing. -/
theorem filter_not_filter {α : Type} (p : α → Bool) (l : List α) :
    (l.filter fun a => !p a).filter p = [] := by
  induction l with
  | nil => rfl
  | cons a t ih =>
      cases hpa : p a <;> simp [List.filter, hpa, ih]

/-- Counterexample to claim C1 as stated: the eviction guard is JavaScript
truthiness of `utterance.typeId`, and the empty string is falsy.  Enqueue an
utterance whose `typeId` is the non-null empty string onto an enabled queue
already holding an entry with that same `typeId`: no eviction runs, the old
entry survives, and after the call the queue holds two pending entries with
that non-null `typeId` — the survivor for the `typeId` is not just the new
utterance. -/
theorem addToBack_eviction_counterexample :
    ({ alert := ["new"], loopAlerts := false, typeId := some "",
       predicate := true, cursor := 0 } : Utterance).typeId ≠ none ∧
    (addToBack
        { queue := [{ alert := ["old"], loopAlerts := false, typeId := some "",
                      predicate := true, cursor := 0 }],
          muted := false, enabled := true, interval := 500 }
        (Alertable.utt { alert := ["new"], loopAlerts := false, typeId := some "",
                         predicate := true, cursor := 0 })).queue =
      [{ alert := ["old"], loopAlerts := false, typeId := some "",
         predicate := true, cursor := 0 },
       { alert := ["new"], loopAlerts := false, typeId := some "",
         predicate := true, cursor := 0 }] ∧
    ((addToBack
        { queue := [{ alert := ["old"], loopAlerts := false, typeId := some "",
                      predicate := true, cursor := 0 }],
          muted := false, enabled := true, interval := 500 }
        (Alertable.utt { alert := ["new"], loopAlerts := false, typeId := some "",
                         predicate := true, cursor := 0 })).queue.filter
      (fun v => v.typeId == some "")) ≠
      [{ alert := ["new"], loopAlerts := false, typeId := some "",
         predicate := true, cursor := 0 }] := by
  refine ⟨by decide, by decide, by decide⟩

/-- Claim C1 amended: for every enabled queue state and every `addToBack( u )`
whose `typeId` is non-null AND non-empty (i.e. truthy in JavaScript), every
entry already queued whose `typeId` equals `u`'s is removed before `u` is
appended at the tail, so among the entries of the resulting queue carrying
that `typeId` only `u` itself remains (last-writer-wins for that truthy
`typeId`). -/
theorem addToBack_evicts_truthy_typeId (st : QueueState) (u : Utterance)
    (s : String) (he : st.enabled = true) (ht : u.typeId = some s)
    (hs : s ≠ "") :
    (addToBack st (Alertable.utt u)).queue =
      st.queue.filter (fun v => !(v.typeId == u.typeId)) ++ [u] ∧
    (addToBack st (Alertable.utt u)).queue.filter
      (fun v => v.typeId == u.typeId) = [u] := by
  have htr : truthy u.typeId = true := by
    rw [ht]
    simpa [truthy] using hs
  have h1 : (addToBack st (Alertable.utt u)).queue =
      st.queue.filter (fun v => !(v.typeId == u.typeId)) ++ [u] := by
    simp [addToBack, Alertable.wrap, he, htr]
  refine ⟨h1, ?_⟩
  rw [h1, List.filter_append, filter_not_filter]
  simp

/-- Witness for C1 (amended): the queue holds an entry with `typeId` `"t"`
and an unrelated entry; enqueueing a new utterance with `typeId` `"t"`
evicts the stale entry, keeps the unrelated one, and appends the new
utterance, which is then the only pending entry for `"t"`. -/
theorem addToBack_evicts_truthy_typeId_witness :
    (addToBack
        { queue := [{ alert := ["stale"], loopAlerts := false, typeId := some "t",
                      predicate := true, cursor := 0 },
                    { alert := ["other"], loopAlerts := false, typeId := none,
                      predicate := true, cursor := 0 }],
          muted := false, enabled := true, interval := 500 }
        (Alertable.utt { alert := ["fresh"], loopAlerts := false, typeId := some "t",
                         predicate := true, cursor := 0 })).queue =
      [{ alert := ["other"], loopAlerts := false, typeId := none,
         predicate := true, cursor := 0 },
       { alert := ["fresh"], loopAlerts := false, typeId := some "t",
         predicate := true, cursor := 0 }] ∧
    (addToBack
        { queue := [{ alert := ["stale"], loopAlerts := false, typeId := some "t",
                      predicate := true, cursor := 0 },
                    { alert := ["other"], loopAlerts := false, typeId := none,
                      predicate := true, cursor := 0 }],
          muted := false, enabled := true, interval := 500 }
        (Alertable.utt { alert := ["fresh"], loopAlerts := false, typeId := some "t",
                         predicate := true, cursor := 0 })).queue.filter
      (fun v => v.typeId == some "t") =
      [{ alert := ["fresh"], loopAlerts := false, typeId := some "t",
         predicate := true, cursor := 0 }] := by
  have h := addToBack_evicts_truthy_typeId
      { queue := [{ alert := ["stale"], loopAlerts := false, typeId := some "t",
                    predicate := true, cursor := 0 },
                  { alert := ["other"], loopAlerts := false, typeId := none,
                    predicate := true, cursor := 0 }],
        muted := false, enabled := true, interval := 500 }
      { alert := ["fresh"], loopAlerts := false, typeId := some "t",
        predicate := true, cursor := 0 } "t" rfl rfl (by decide)
  exact ⟨by rw [h.1]; rfl, by rw [h.2]⟩

/-- `addToBack` only rewrites the queue array: the flags and the interval
variable are untouched. -/
theorem addToBack_preserves_flags (st : QueueState) (a : Alertable) :
    (addToBack st a).muted = st.muted ∧ (addToBack st a).enabled = st.enabled ∧
    (addToBack st a).interval = st.interval := by
  unfold addToBack
  split <;> exact ⟨rfl, rfl, rfl⟩

/-- A fold of `addToBack` calls likewise leaves the flags and the interval
variable untouched. -/
theorem enqueueAll_preserves_flags (us : List Utterance) :
    ∀ st : QueueState,
      (enqueueAll st us).muted = st.muted ∧
      (enqueueAll st us).enabled = st.enabled ∧
      (enqueueAll st us).interval = st.interval := by
  induction us with
  | nil => intro st; exact ⟨rfl, rfl, rfl⟩
  | cons u rest ih =>
      intro st
      have hstep : enqueueAll st (u :: rest) =
          enqueueAll (addToBack st (Alertable.utt u)) rest := rfl
      have h1 := addToBack_preserves_flags st (Alertable.utt u)
      have h2 := ih (addToBack st (Alertable.utt u))
      rw [hstep]
      exact ⟨h2.1.trans h1.1, h2.2.1.trans h1.2.1, h2.2.2.trans h1.2.2⟩

/-- When no incoming utterance can evict anything — each one either has a
non-truthy `typeId` or a `typeId` shared neither with the existing queue nor
with any utterance enqueued before it — a fold of `addToBack` calls on an
enabled queue appends the utterances in call order. -/
theorem enqueueAll_appends (us : List Utterance) :
    ∀ st : QueueState, st.enabled = true →
      (∀ u ∈ us, ∀ v ∈ st.queue, v.typeId = u.typeId → truthy u.typeId = false) →
      List.Pairwise (fun a b => a.typeId = b.typeId → truthy b.typeId = false) us →
      (enqueueAll st us).queue = st.queue ++ us := by
  induction us with
  | nil => intro st he hc hp; simp [enqueueAll]
  | cons u rest ih =>
      intro st he hc hp
      have hstep : enqueueAll st (u :: rest) =
          enqueueAll (addToBack st (Alertable.utt u)) rest := rfl
      have hq : (addToBack st (Alertable.utt u)).queue = st.queue ++ [u] := by
        unfold addToBack
        rw [if_pos he]
        show (if truthy u.typeId then
            st.queue.filter (fun v => !(v.typeId == u.typeId))
          else st.queue) ++ [u] = st.queue ++ [u]
        cases htr : truthy u.typeId with
        | false => rw [if_neg (by simp [htr])]
        | true =>
            rw [if_pos rfl, List.filter_eq_self.mpr]
            intro v hv
            have hne : v.typeId ≠ u.typeId := by
              intro heq
              have := hc u (List.mem_cons_self u rest) v hv heq
              rw [this] at htr
              exact Bool.false_ne_true htr
            simpa using hne
      have he' : (addToBack st (Alertable.utt u)).enabled = true :=
        (addToBack_preserves_flags st (Alertable.utt u)).2.1.trans he
      have hc' : ∀ w ∈ rest, ∀ v ∈ (addToBack st (Alertable.utt u)).queue,
          v.typeId = w.typeId → truthy w.typeId = false := by
        intro w hw v hv heq
        rw [hq] at hv
        rcases List.mem_append.mp hv with hvq | hvu
        · exact hc w (List.mem_cons_of_mem u hw) v hvq heq
        · have hvu' : v = u := by simpa using hvu
          exact (List.pairwise_cons.mp hp).1 w hw (hvu' ▸ heq)
      have hrest := ih (addToBack st (Alertable.utt u)) he' hc'
        (List.pairwise_cons.mp hp).2
      rw [hstep, hrest, hq, List.append_assoc]
      rfl

/-- Successive `next()` steps on an unmuted queue whose pending utterances
all have true predicates announce every pending utterance's current text, in
queue order. -/
theorem drainN_announces_queue (q : List Utterance) :
    ∀ st : QueueState, st.queue = q → st.muted = false →
      (∀ u ∈ q, u.predicate = true) →
      (drainN st q.length).2 = q.map Utterance.currentText := by
  induction q with
  | nil => intro st h hm hp; rfl
  | cons u rest ih =>
      intro st h hm hp
      obtain ⟨qq, m, e, i⟩ := st
      simp only at h hm
      subst h
      subst hm
      have hpu : u.predicate = true := hp u (List.mem_cons_self u rest)
      have hnext : next ⟨u :: rest, false, e, i⟩ =
          (⟨rest, false, e, i⟩, some u.currentText) := by
        simp [next, hpu]
      show ((next ⟨u :: rest, false, e, i⟩).2.toList ++
        (drainN (next ⟨u :: rest, false, e, i⟩).1 rest.length).2) =
        u.currentText :: rest.map Utterance.currentText
      rw [hnext]
      have := ih ⟨rest, false, e, i⟩ rfl rfl
        (fun v hv => hp v (List.mem_cons_of_mem u hv))
      rw [this]
      rfl

/-- Claim C4: starting from an enabled, unmuted, empty queue, for every
sequence of `addToBack` calls whose utterances have pairwise distinct
`typeId`s or no `typeId` at all, and whose predicates all return true,
draining the queue with successive `next()` steps announces the utterances'
texts in exactly the order of the `addToBack` calls — strict FIFO. -/
theorem addToBack_drain_is_fifo (st : QueueState) (us : List Utterance)
    (h0 : st.queue = []) (he : st.enabled = true) (hm : st.muted = false)
    (hp : ∀ u ∈ us, u.predicate = true)
    (hd : List.Pairwise
      (fun a b => a.typeId = none ∨ b.typeId = none ∨ a.typeId ≠ b.typeId) us) :
    (drainN (enqueueAll st us) us.length).2 = us.map Utterance.currentText := by
  have hc : ∀ u ∈ us, ∀ v ∈ st.queue, v.typeId = u.typeId →
      truthy u.typeId = false := by
    intro u _ v hv
    rw [h0] at hv
    exact absurd hv (List.not_mem_nil v)
  have hp' : List.Pairwise
      (fun a b : Utterance => a.typeId = b.typeId → truthy b.typeId = false) us := by
    refine hd.imp ?_
    intro a b hab heq
    rcases hab with ha | hb | hne
    · rw [← heq, ha]; rfl
    · rw [hb]; rfl
    · exact absurd heq hne
  have hq : (enqueueAll st us).queue = us := by
    rw [enqueueAll_appends us st he hc hp', h0]
    rfl
  have hm' : (enqueueAll st us).muted = false :=
    (enqueueAll_preserves_flags us st).1.trans hm
  exact drainN_announces_queue us (enqueueAll st us) hq hm' hp

/-- Witness for C4: three utterances — `typeId`s `"a"`, none, `"b"`, all
predicates true — enqueued on the fresh queue and fully drained announce
`"first"`, `"second"`, `"third"` in call order. -/
theorem addToBack_drain_is_fifo_witness :
    (drainN (enqueueAll
        { queue := [], muted := false, enabled := true, interval := 500 }
        [{ alert := ["first"], loopAlerts := false, typeId := some "a",
           predicate := true, cursor := 0 },
         { alert := ["second"], loopAlerts := false, typeId := none,
           predicate := true, cursor := 0 },
         { alert := ["third"], loopAlerts := false, typeId := some "b",
           predicate := true, cursor := 0 }]) 3).2 =
      ["first", "second", "third"] := by
  have h := addToBack_drain_is_fifo
      { queue := [], muted := false, enabled := true, interval := 500 }
      [{ alert := ["first"], loopAlerts := false, typeId := some "a",
         predicate := true, cursor := 0 },
       { alert := ["second"], loopAlerts := false, typeId := none,
         predicate := true, cursor := 0 },
       { alert := ["third"], loopAlerts := false, typeId := some "b",
         predicate := true, cursor := 0 }]
      rfl rfl rfl (by decide) (by decide)
  simpa using h
